import Mathlib

/-!
# restic-monitor — `frontend/vite.config.js`

A shallow embedding of the dev-server configuration exported by
`frontend/vite.config.js`, and the properties of its proxy table and
plugin list.

The JavaScript object literals are embedded as Lean structures.  An
object literal whose keys are arbitrary strings (`server.proxy`) is an
association list in source order, which is also the enumeration order of
string keys of a JavaScript object.  The plugin factory `vue`, imported
from `@vitejs/plugin-vue`, is external to the repository and is taken as
a parameter.
-/

namespace ViteConfig

/-! ## Data model -/

/-- Value of one `server.proxy` entry: `{ target, changeOrigin }`. -/
structure ProxyOptions where
  target : String
  changeOrigin : Bool
  deriving DecidableEq

/-- The `server` object of the configuration: `{ proxy: { ... } }`. -/
structure ServerOptions where
  proxy : List (String × ProxyOptions)
  deriving DecidableEq

/-- The configuration object: `{ plugins: [...], server: { ... } }`,
over the type `P` of plugin descriptors. -/
structure UserConfig (P : Type) where
  plugins : List P
  server : ServerOptions

/-! ## The source file -/

/-- The object literal passed to `defineConfig` (lines 5–23 of
`vite.config.js`).  `vue` is the default import of `@vitejs/plugin-vue`;
the source calls it with no argument. -/
def userConfig {P : Type} (vue : Unit → P) : UserConfig P :=
  { plugins := [vue ()],
    server :=
      { proxy :=
          [ ("/api",
              { target := "http://localhost:4711",
                changeOrigin := true }),
            ("/agents",
              { target := "http://localhost:4711",
                changeOrigin := true }),
            ("/policies",
              { target := "http://localhost:4711",
                changeOrigin := true }) ] } }

/-- The helper `defineConfig` imported from `vite`: it returns the
configuration object it is given, unchanged. -/
def defineConfig {P : Type} (config : UserConfig P) : UserConfig P :=
  config

/-- The module's default export: `export default defineConfig({ ... })`. -/
def exportDefault {P : Type} (vue : Unit → P) : UserConfig P :=
  defineConfig (userConfig vue)

/-- The keys of a proxy table, in source order (`Object.keys`). -/
def proxyKeys (proxy : List (String × ProxyOptions)) : List String :=
  proxy.map Prod.fst

/-! ## Request matching -/

/-- JavaScript `s.startsWith(pre)`: `pre` is an initial segment of `s`. -/
def startsWith (s pre : String) : Bool :=
  pre.data.isPrefixOf s.data

/-- Modelled from the spec: the host dev server's lookup, which is not
part of this repository.  The entries are tried in order and the first
one whose key is a string prefix of the request path is selected. -/
def findProxyEntry (proxy : List (String × ProxyOptions)) (path : String) :
    Option (String × ProxyOptions) :=
  proxy.find? (fun e => startsWith path e.1)

/-- Modelled from the spec: the result of resolving a request path
against a proxy table by first-match string-prefix lookup, namely the
options of the selected entry, or `none` when no entry matches. -/
def resolve (proxy : List (String × ProxyOptions)) (path : String) :
    Option ProxyOptions :=
  (findProxyEntry proxy path).map Prod.snd

/-! ## Helper lemmas -/

/-- The proxy table of the exported configuration, as written in the
source. -/
theorem exportDefault_proxy {P : Type} (vue : Unit → P) :
    (exportDefault vue).server.proxy =
      [ ("/api", ⟨"http://localhost:4711", true⟩),
        ("/agents", ⟨"http://localhost:4711", true⟩),
        ("/policies", ⟨"http://localhost:4711", true⟩) ] :=
  rfl

/-- Membership in the exported proxy table, spelled out. -/
theorem mem_exportDefault_proxy {P : Type} (vue : Unit → P)
    (e : String × ProxyOptions) :
    e ∈ (exportDefault vue).server.proxy ↔
      e = ("/api", ⟨"http://localhost:4711", true⟩) ∨
      e = ("/agents", ⟨"http://localhost:4711", true⟩) ∨
      e = ("/policies", ⟨"http://localhost:4711", true⟩) := by
  simp [exportDefault_proxy]

/-- No request path starts with both `/api` and `/agents`. -/
theorem not_startsWith_api_agents (path : String) :
    ¬ (startsWith path "/api" = true ∧ startsWith path "/agents" = true) := by
  unfold startsWith
  rcases path.data with _ | ⟨a, _ | ⟨b, _ | ⟨c, t⟩⟩⟩ <;>
    simp [List.isPrefixOf]
  rintro rfl rfl rfl - - - h
  exact absurd h (by decide)

/-- No request path starts with both `/api` and `/policies`. -/
theorem not_startsWith_api_policies (path : String) :
    ¬ (startsWith path "/api" = true ∧ startsWith path "/policies" = true) := by
  unfold startsWith
  rcases path.data with _ | ⟨a, _ | ⟨b, t⟩⟩ <;>
    simp [List.isPrefixOf]
  rintro rfl rfl - - h
  exact absurd h (by decide)

/-- No request path starts with both `/agents` and `/policies`. -/
theorem not_startsWith_agents_policies (path : String) :
    ¬ (startsWith path "/agents" = true ∧ startsWith path "/policies" = true) := by
  unfold startsWith
  rcases path.data with _ | ⟨a, _ | ⟨b, t⟩⟩ <;>
    simp [List.isPrefixOf]
  rintro rfl rfl - - h
  exact absurd h (by decide)

/-- First-match lookup is invariant under permutation of the list when
at most one element of the list satisfies the predicate. -/
theorem find?_eq_of_perm_of_unique {α : Type} (p : α → Bool) {l₁ l₂ : List α}
    (hperm : l₁.Perm l₂)
    (huniq : ∀ a ∈ l₂, ∀ b ∈ l₂, p a = true → p b = true → a = b) :
    l₁.find? p = l₂.find? p := by
  cases h₂ : l₂.find? p with
  | none =>
    rw [List.find?_eq_none] at h₂ ⊢
    intro x hx
    exact h₂ x (hperm.mem_iff.mp hx)
  | some b =>
    have hb : b ∈ l₂ := List.mem_of_find?_eq_some h₂
    have hpb : p b = true := List.find?_some h₂
    cases h₁ : l₁.find? p with
    | none =>
      rw [List.find?_eq_none] at h₁
      exact absurd hpb (h₁ b (hperm.mem_iff.mpr hb))
    | some a =>
      have ha : a ∈ l₂ := hperm.mem_iff.mp (List.mem_of_find?_eq_some h₁)
      have hpa : p a = true := List.find?_some h₁
      rw [huniq a ha b hb hpa hpb]

/-- At most one entry of the exported proxy table matches a request path. -/
theorem proxy_match_unique {P : Type} (vue : Unit → P) (path : String)
    (a : String × ProxyOptions) (ha : a ∈ (exportDefault vue).server.proxy)
    (b : String × ProxyOptions) (hb : b ∈ (exportDefault vue).server.proxy)
    (hpa : startsWith path a.1 = true) (hpb : startsWith path b.1 = true) :
    a = b := by
  have h12 := not_startsWith_api_agents path
  have h13 := not_startsWith_api_policies path
  have h23 := not_startsWith_agents_policies path
  rw [mem_exportDefault_proxy] at ha hb
  rcases ha with rfl | rfl | rfl <;> rcases hb with rfl | rfl | rfl <;>
    simp_all

/-! ## Claims -/

/-- C1: every entry of the exported `server.proxy` table has target
`http://localhost:4711`. -/
theorem proxy_target_eq {P : Type} (vue : Unit → P)
    (e : String × ProxyOptions) (he : e ∈ (exportDefault vue).server.proxy) :
    e.2.target = "http://localhost:4711" := by
  rw [mem_exportDefault_proxy] at he
  rcases he with rfl | rfl | rfl <;> rfl

/-- Instance of C1 at the `/api` entry. -/
theorem proxy_target_eq_witness :
    (("/api", ⟨"http://localhost:4711", true⟩) : String × ProxyOptions) ∈
        (exportDefault (fun _ : Unit => ())).server.proxy ∧
      (("/api", ⟨"http://localhost:4711", true⟩) : String × ProxyOptions).2.target =
        "http://localhost:4711" :=
  ⟨by decide, proxy_target_eq (fun _ : Unit => ()) _ (by decide)⟩

/-- C2: every entry of the exported `server.proxy` table has
`changeOrigin` equal to `true`. -/
theorem proxy_changeOrigin_eq {P : Type} (vue : Unit → P)
    (e : String × ProxyOptions) (he : e ∈ (exportDefault vue).server.proxy) :
    e.2.changeOrigin = true := by
  rw [mem_exportDefault_proxy] at he
  rcases he with rfl | rfl | rfl <;> rfl

/-- Instance of C2 at the `/agents` entry. -/
theorem proxy_changeOrigin_eq_witness :
    (("/agents", ⟨"http://localhost:4711", true⟩) : String × ProxyOptions) ∈
        (exportDefault (fun _ : Unit => ())).server.proxy ∧
      (("/agents", ⟨"http://localhost:4711", true⟩) : String × ProxyOptions).2.changeOrigin =
        true :=
  ⟨by decide, proxy_changeOrigin_eq (fun _ : Unit => ()) _ (by decide)⟩

/-- C3: the keys of the exported `server.proxy` table are exactly `/api`,
`/agents` and `/policies`: the table has three entries, and a string is a
key if and only if it is one of these three. -/
theorem proxy_keys_exact {P : Type} (vue : Unit → P) :
    (exportDefault vue).server.proxy.length = 3 ∧
      proxyKeys (exportDefault vue).server.proxy = ["/api", "/agents", "/policies"] ∧
      ∀ k : String, k ∈ proxyKeys (exportDefault vue).server.proxy ↔
        (k = "/api" ∨ k = "/agents" ∨ k = "/policies") := by
  refine ⟨rfl, rfl, fun k => ?_⟩
  simp [proxyKeys, exportDefault_proxy]

/-- C4: the exported `plugins` sequence has exactly one element, and that
element is the result of the call `vue()`. -/
theorem plugins_single_vue {P : Type} (vue : Unit → P) :
    (exportDefault vue).plugins.length = 1 ∧
      (exportDefault vue).plugins = [vue ()] :=
  ⟨rfl, rfl⟩

/-- C5: the keys of the exported `server.proxy` table are pairwise
distinct: entries at two different positions have different keys. -/
theorem proxy_keys_distinct {P : Type} (vue : Unit → P)
    (i j : Fin (exportDefault vue).server.proxy.length) (hij : i ≠ j) :
    ((exportDefault vue).server.proxy.get i).1 ≠
      ((exportDefault vue).server.proxy.get j).1 := by
  obtain ⟨i, hi⟩ := i
  obtain ⟨j, hj⟩ := j
  have hi3 : i < 3 := hi
  have hj3 : j < 3 := hj
  have hne : i ≠ j := fun h => hij (Fin.ext h)
  interval_cases i <;> interval_cases j <;>
    first
      | exact absurd rfl hne
      | (simp only [exportDefault_proxy, List.get_eq_getElem, List.getElem_cons_zero,
          List.getElem_cons_succ]; decide)

/-- Instance of C5 at positions 0 and 2. -/
theorem proxy_keys_distinct_witness :
    (⟨0, by decide⟩ : Fin (exportDefault (fun _ : Unit => ())).server.proxy.length) ≠
        ⟨2, by decide⟩ ∧
      ((exportDefault (fun _ : Unit => ())).server.proxy.get ⟨0, by decide⟩).1 ≠
        ((exportDefault (fun _ : Unit => ())).server.proxy.get ⟨2, by decide⟩).1 :=
  ⟨by decide, proxy_keys_distinct (fun _ : Unit => ()) ⟨0, by decide⟩ ⟨2, by decide⟩ (by decide)⟩

/-- C6: no key of the exported `server.proxy` table is a string prefix of
a different key; no request path starts with two different keys; hence
for every request path at most one entry of the table matches it. -/
theorem proxy_keys_no_overlap {P : Type} (vue : Unit → P) (k₁ k₂ : String)
    (h₁ : k₁ ∈ proxyKeys (exportDefault vue).server.proxy)
    (h₂ : k₂ ∈ proxyKeys (exportDefault vue).server.proxy)
    (hne : k₁ ≠ k₂) :
    startsWith k₂ k₁ = false ∧
      (∀ path : String, ¬ (startsWith path k₁ = true ∧ startsWith path k₂ = true)) ∧
      (∀ path : String,
        ((exportDefault vue).server.proxy.filter
          (fun e => startsWith path e.1)).length ≤ 1) := by
  have hboth : ∀ path : String,
      ¬ (startsWith path k₁ = true ∧ startsWith path k₂ = true) := by
    intro path
    have h12 := not_startsWith_api_agents path
    have h13 := not_startsWith_api_policies path
    have h23 := not_startsWith_agents_policies path
    simp only [proxyKeys, exportDefault_proxy, List.map_cons, List.map_nil,
      List.mem_cons, List.mem_singleton, List.not_mem_nil, or_false] at h₁ h₂
    rcases h₁ with rfl | rfl | rfl <;> rcases h₂ with rfl | rfl | rfl <;>
      first
        | exact absurd rfl hne
        | tauto
  refine ⟨?_, hboth, ?_⟩
  · cases hk : startsWith k₂ k₁ with
    | false => rfl
    | true =>
      have hself : startsWith k₂ k₂ = true := by
        simp [startsWith]
      exact absurd ⟨hk, hself⟩ (hboth k₂)
  · intro path
    have h12 := not_startsWith_api_agents path
    have h13 := not_startsWith_api_policies path
    have h23 := not_startsWith_agents_policies path
    rw [exportDefault_proxy]
    cases ha : startsWith path "/api" <;> cases hb : startsWith path "/agents" <;>
      cases hc : startsWith path "/policies" <;>
      simp_all [List.filter]

/-- Instance of C6 at the keys `/api` and `/agents`. -/
theorem proxy_keys_no_overlap_witness :
    ("/api" ∈ proxyKeys (exportDefault (fun _ : Unit => ())).server.proxy ∧
      "/agents" ∈ proxyKeys (exportDefault (fun _ : Unit => ())).server.proxy ∧
      "/api" ≠ "/agents") ∧
    (startsWith "/agents" "/api" = false ∧
      (∀ path : String,
        ¬ (startsWith path "/api" = true ∧ startsWith path "/agents" = true)) ∧
      (∀ path : String,
        ((exportDefault (fun _ : Unit => ())).server.proxy.filter
          (fun e => startsWith path e.1)).length ≤ 1)) :=
  ⟨⟨by decide, by decide, by decide⟩,
    proxy_keys_no_overlap (fun _ : Unit => ()) "/api" "/agents"
      (by decide) (by decide) (by decide)⟩

/-- C7: resolution does not depend on the order of the entries.  For
every permutation of the exported `server.proxy` entries and every
request path, first-match string-prefix lookup over the permuted entries
selects the same entry and gives the same result as over the declared
order, and that result is either no match or target
`http://localhost:4711` with `changeOrigin` true. -/
theorem resolve_perm_invariant {P : Type} (vue : Unit → P)
    (entries : List (String × ProxyOptions))
    (hperm : entries.Perm (exportDefault vue).server.proxy) (path : String) :
    findProxyEntry entries path =
        findProxyEntry (exportDefault vue).server.proxy path ∧
      resolve entries path = resolve (exportDefault vue).server.proxy path ∧
      (resolve entries path = none ∨
        resolve entries path = some ⟨"http://localhost:4711", true⟩) := by
  have hfind : findProxyEntry entries path =
      findProxyEntry (exportDefault vue).server.proxy path := by
    unfold findProxyEntry
    exact find?_eq_of_perm_of_unique
      (fun e : String × ProxyOptions => startsWith path e.1) hperm
      (fun a ha b hb hpa hpb => proxy_match_unique vue path a ha b hb hpa hpb)
  have hres : resolve entries path =
      resolve (exportDefault vue).server.proxy path := by
    unfold resolve
    rw [hfind]
  refine ⟨hfind, hres, ?_⟩
  rw [hres]
  unfold resolve
  cases hf : findProxyEntry (exportDefault vue).server.proxy path with
  | none => exact Or.inl rfl
  | some e =>
    right
    have he : e ∈ (exportDefault vue).server.proxy :=
      List.mem_of_find?_eq_some hf
    rw [mem_exportDefault_proxy] at he
    rcases he with rfl | rfl | rfl <;> rfl

/-- Instance of C7 at the reversed table and the path `/agents/7`. -/
theorem resolve_perm_invariant_witness :
    (exportDefault (fun _ : Unit => ())).server.proxy.reverse.Perm
        (exportDefault (fun _ : Unit => ())).server.proxy ∧
      (findProxyEntry (exportDefault (fun _ : Unit => ())).server.proxy.reverse "/agents/7" =
          findProxyEntry (exportDefault (fun _ : Unit => ())).server.proxy "/agents/7" ∧
        resolve (exportDefault (fun _ : Unit => ())).server.proxy.reverse "/agents/7" =
          resolve (exportDefault (fun _ : Unit => ())).server.proxy "/agents/7" ∧
        (resolve (exportDefault (fun _ : Unit => ())).server.proxy.reverse "/agents/7" = none ∨
          resolve (exportDefault (fun _ : Unit => ())).server.proxy.reverse "/agents/7" =
            some ⟨"http://localhost:4711", true⟩)) :=
  ⟨List.reverse_perm _,
    resolve_perm_invariant (fun _ : Unit => ()) _ (List.reverse_perm _) "/agents/7"⟩

end ViteConfig
